import Mathlib

/-!
Shallow embedding of the log_limit crate (src/lib.rs).

Time is modelled as Nat ticks; Instant.duration_since saturates at zero,
which Nat truncated subtraction reproduces.  Each call to log_maybe is
modelled as a pure step: it takes the current limiter state together with
the current instant and the per-call parameters, and returns the new state
plus a record of the observable effects of that call (whether the gated
action ran, whether the one-time threshold diagnostic fired, and the drop
report, if any).  The warning-messages feature is taken as enabled, since
the diagnostics only exist under it.  Sequential use is modelled for both
variants: for the synchronised variant the fetch_add, the locked recheck
and the swap of one call are not interleaved with other calls, so the
value returned by swap(1) is the value fetch_add left in the counter.
-/

/-- Observable effects of one log_maybe call: whether the caller action ran,
whether the one-time threshold-reached diagnostic fired, and the drop count
reported at a rollover (none when no drop diagnostic was emitted). -/
structure LogOutput where
  ran : Bool
  hitThreshold : Bool
  dropReport : Option Nat
deriving DecidableEq

/-- State of the exclusive variant: a plain counter and a timestamp. -/
structure RateLimiter where
  count : Nat
  timestamp : Nat
deriving DecidableEq

/-- RateLimiter::new, with the construction instant passed explicitly. -/
def RateLimiter.new (now : Nat) : RateLimiter :=
  { count := 0, timestamp := now }

/-- RateLimiter::log_maybe (src/lib.rs lines 33-68). -/
def RateLimiter.log_maybe (s : RateLimiter) (now period max_per_time : Nat) :
    RateLimiter × LogOutput :=
  if s.count < max_per_time then
    ({ s with count := s.count + 1 },
     { ran := true, hitThreshold := decide (s.count + 1 = max_per_time),
       dropReport := none })
  else
    let calculated_duration := now - s.timestamp
    if period < calculated_duration then
      let filtered_log_count := s.count - max_per_time
      ({ count := 1, timestamp := now },
       { ran := true, hitThreshold := false,
         dropReport :=
           if 0 < filtered_log_count then some filtered_log_count else none })
    else
      ({ s with count := s.count + 1 },
       { ran := false, hitThreshold := false, dropReport := none })

/-- State of the shared variant under sequential use: the atomic counter and
the mutex-guarded timestamp collapse to plain fields. -/
structure SynchronisedRateLimiter where
  count : Nat
  timestamp : Nat
deriving DecidableEq

/-- SynchronisedRateLimiter::new, via the LazyLock initialiser: the counter
starts at zero and the timestamp is the first-use instant. -/
def SynchronisedRateLimiter.new (now : Nat) : SynchronisedRateLimiter :=
  { count := 0, timestamp := now }

/-- SynchronisedRateLimiter::log_maybe (src/lib.rs lines 85-117), sequential
use: count is the post-fetch_add value, and swap(1) returns that same value
in the slow path. -/
def SynchronisedRateLimiter.log_maybe (s : SynchronisedRateLimiter)
    (now period max_per_time : Nat) : SynchronisedRateLimiter × LogOutput :=
  let count := s.count + 1
  if count ≤ max_per_time then
    ({ s with count := count },
     { ran := true, hitThreshold := decide (count = max_per_time),
       dropReport := none })
  else
    let calculated_duration := now - s.timestamp
    if period < calculated_duration then
      let filtered_log_count := count - max_per_time - 1
      ({ count := 1, timestamp := now },
       { ran := true, hitThreshold := false,
         dropReport :=
           if 0 < filtered_log_count then some filtered_log_count else none })
    else
      ({ s with count := count },
       { ran := false, hitThreshold := false, dropReport := none })

/-- Sequential trace of the exclusive limiter over a list of call instants
with fixed period and threshold; returns the final state and the per-call
outputs in order. -/
def RateLimiter.run (s : RateLimiter) (period max_per_time : Nat) :
    List Nat → RateLimiter × List LogOutput
  | [] => (s, [])
  | now :: rest =>
    let p := s.log_maybe now period max_per_time
    let q := p.1.run period max_per_time rest
    (q.1, p.2 :: q.2)

/-- Sequential trace of the shared limiter, as for the exclusive one. -/
def SynchronisedRateLimiter.run (s : SynchronisedRateLimiter)
    (period max_per_time : Nat) :
    List Nat → SynchronisedRateLimiter × List LogOutput
  | [] => (s, [])
  | now :: rest =>
    let p := s.log_maybe now period max_per_time
    let q := p.1.run period max_per_time rest
    (q.1, p.2 :: q.2)

/-- Number of calls in a trace that executed the gated action. -/
def executedCount (outs : List LogOutput) : Nat :=
  (outs.filter fun o => o.ran).length

/-- Drop counts reported along a trace, in order. -/
def dropReports (outs : List LogOutput) : List Nat :=
  outs.filterMap fun o => o.dropReport

/-- Checks that no call of the trace observes an elapsed window: each call
either stays on the under-threshold path, or the duration it computes is at
most the period, so no rollover ever fires. -/
def RateLimiter.noRollover (s : RateLimiter) (period max_per_time : Nat) :
    List Nat → Bool
  | [] => true
  | now :: rest =>
    (decide (s.count < max_per_time) || decide (now - s.timestamp ≤ period)) &&
      (s.log_maybe now period max_per_time).1.noRollover period max_per_time rest

/-- Same no-rollover check for the shared variant: each call stays on the
lock-free fast path or finds the window not yet elapsed. -/
def SynchronisedRateLimiter.noRollover (s : SynchronisedRateLimiter)
    (period max_per_time : Nat) : List Nat → Bool
  | [] => true
  | now :: rest =>
    (decide (s.count + 1 ≤ max_per_time) ||
        decide (now - s.timestamp ≤ period)) &&
      (s.log_maybe now period max_per_time).1.noRollover period max_per_time rest

/-- Instrumented trace of the exclusive limiter: alongside the state it
counts the suppressed calls since the last rollover (reset to zero when a
rollover fires, incremented on every suppressed call). -/
def RateLimiter.runAcc (s : RateLimiter) (supp period max_per_time : Nat) :
    List Nat → RateLimiter × Nat
  | [] => (s, supp)
  | now :: rest =>
    let p := s.log_maybe now period max_per_time
    let supp2 :=
      if p.2.ran then (if s.count < max_per_time then supp else 0)
      else supp + 1
    p.1.runAcc supp2 period max_per_time rest

/-- Instrumented trace of the shared limiter, as for the exclusive one. -/
def SynchronisedRateLimiter.runAcc (s : SynchronisedRateLimiter)
    (supp period max_per_time : Nat) : List Nat → SynchronisedRateLimiter × Nat
  | [] => (s, supp)
  | now :: rest =>
    let p := s.log_maybe now period max_per_time
    let supp2 :=
      if p.2.ran then (if s.count + 1 ≤ max_per_time then supp else 0)
      else supp + 1
    p.1.runAcc supp2 period max_per_time rest

/-- Checked subtraction: models usize subtraction, returning none exactly
when the Rust expression would underflow. -/
def checkedSub (a b : Nat) : Option Nat :=
  if b ≤ a then some (a - b) else none

/-- RateLimiter::log_maybe with the drop subtraction checked for underflow. -/
def RateLimiter.log_maybe_checked (s : RateLimiter)
    (now period max_per_time : Nat) : Option (RateLimiter × LogOutput) :=
  if s.count < max_per_time then
    some ({ s with count := s.count + 1 },
      { ran := true, hitThreshold := decide (s.count + 1 = max_per_time),
        dropReport := none })
  else
    let calculated_duration := now - s.timestamp
    if period < calculated_duration then
      match checkedSub s.count max_per_time with
      | none => none
      | some filtered_log_count =>
        some ({ count := 1, timestamp := now },
          { ran := true, hitThreshold := false,
            dropReport :=
              if 0 < filtered_log_count then some filtered_log_count else none })
    else
      some ({ s with count := s.count + 1 },
        { ran := false, hitThreshold := false, dropReport := none })

/-- SynchronisedRateLimiter::log_maybe with both subtractions of the drop
expression swap(1) - max_per_time - 1 checked for underflow, evaluated left
to right as in the source. -/
def SynchronisedRateLimiter.log_maybe_checked (s : SynchronisedRateLimiter)
    (now period max_per_time : Nat) :
    Option (SynchronisedRateLimiter × LogOutput) :=
  let count := s.count + 1
  if count ≤ max_per_time then
    some ({ s with count := count },
      { ran := true, hitThreshold := decide (count = max_per_time),
        dropReport := none })
  else
    let calculated_duration := now - s.timestamp
    if period < calculated_duration then
      match checkedSub count max_per_time with
      | none => none
      | some d0 =>
        match checkedSub d0 1 with
        | none => none
        | some filtered_log_count =>
          some ({ count := 1, timestamp := now },
            { ran := true, hitThreshold := false,
              dropReport :=
                if 0 < filtered_log_count then some filtered_log_count
                else none })
    else
      some ({ s with count := count },
        { ran := false, hitThreshold := false, dropReport := none })

/-- Per-call trace of the exclusive limiter where each call carries its own
instant, period and threshold. -/
def RateLimiter.runSeq (s : RateLimiter) :
    List (Nat × Nat × Nat) → RateLimiter × List LogOutput
  | [] => (s, [])
  | c :: rest =>
    let p := s.log_maybe c.1 c.2.1 c.2.2
    let q := p.1.runSeq rest
    (q.1, p.2 :: q.2)

/-- Per-call trace of the shared limiter, as for the exclusive one. -/
def SynchronisedRateLimiter.runSeq (s : SynchronisedRateLimiter) :
    List (Nat × Nat × Nat) → SynchronisedRateLimiter × List LogOutput
  | [] => (s, [])
  | c :: rest =>
    let p := s.log_maybe c.1 c.2.1 c.2.2
    let q := p.1.runSeq rest
    (q.1, p.2 :: q.2)

/-- Fast-path step of the exclusive limiter. -/
theorem RateLimiter.log_maybe_fast (s : RateLimiter)
    (now period max_per_time : Nat) (h : s.count < max_per_time) :
    s.log_maybe now period max_per_time =
      ({ s with count := s.count + 1 },
       { ran := true, hitThreshold := decide (s.count + 1 = max_per_time),
         dropReport := none }) := by
  simp [RateLimiter.log_maybe, h]

/-- Rollover step of the exclusive limiter. -/
theorem RateLimiter.log_maybe_roll (s : RateLimiter)
    (now period max_per_time : Nat) (h : ¬ s.count < max_per_time)
    (h2 : period < now - s.timestamp) :
    s.log_maybe now period max_per_time =
      ({ count := 1, timestamp := now },
       { ran := true, hitThreshold := false,
         dropReport :=
           if 0 < s.count - max_per_time then some (s.count - max_per_time)
           else none }) := by
  simp [RateLimiter.log_maybe, h, h2]

/-- Suppression step of the exclusive limiter. -/
theorem RateLimiter.log_maybe_supp (s : RateLimiter)
    (now period max_per_time : Nat) (h : ¬ s.count < max_per_time)
    (h2 : ¬ period < now - s.timestamp) :
    s.log_maybe now period max_per_time =
      ({ s with count := s.count + 1 },
       { ran := false, hitThreshold := false, dropReport := none }) := by
  simp [RateLimiter.log_maybe, h, h2]

/-- Fast-path step of the shared limiter. -/
theorem SynchronisedRateLimiter.log_maybe_fast_sync (s : SynchronisedRateLimiter)
    (now period max_per_time : Nat) (h : s.count + 1 ≤ max_per_time) :
    s.log_maybe now period max_per_time =
      ({ s with count := s.count + 1 },
       { ran := true, hitThreshold := decide (s.count + 1 = max_per_time),
         dropReport := none }) := by
  simp [SynchronisedRateLimiter.log_maybe, h]

/-- Rollover step of the shared limiter. -/
theorem SynchronisedRateLimiter.log_maybe_roll_sync (s : SynchronisedRateLimiter)
    (now period max_per_time : Nat) (h : ¬ s.count + 1 ≤ max_per_time)
    (h2 : period < now - s.timestamp) :
    s.log_maybe now period max_per_time =
      ({ count := 1, timestamp := now },
       { ran := true, hitThreshold := false,
         dropReport :=
           if 0 < s.count + 1 - max_per_time - 1 then
             some (s.count + 1 - max_per_time - 1)
           else none }) := by
  simp [SynchronisedRateLimiter.log_maybe, h, h2]

/-- Suppression step of the shared limiter. -/
theorem SynchronisedRateLimiter.log_maybe_supp_sync (s : SynchronisedRateLimiter)
    (now period max_per_time : Nat) (h : ¬ s.count + 1 ≤ max_per_time)
    (h2 : ¬ period < now - s.timestamp) :
    s.log_maybe now period max_per_time =
      ({ s with count := s.count + 1 },
       { ran := false, hitThreshold := false, dropReport := none }) := by
  simp [SynchronisedRateLimiter.log_maybe, h, h2]

/-- On a no-rollover trace the exclusive limiter executes at most the
remaining budget of the current window. -/
theorem RateLimiter.executed_le_of_noRollover (period max_per_time : Nat)
    (nows : List Nat) :
    ∀ s : RateLimiter, s.noRollover period max_per_time nows = true →
      executedCount (s.run period max_per_time nows).2 ≤
        max_per_time - s.count := by
  induction nows with
  | nil =>
    intro s _
    simp [RateLimiter.run, executedCount]
  | cons now rest ih =>
    intro s h
    rw [RateLimiter.noRollover, Bool.and_eq_true] at h
    obtain ⟨h1, h2⟩ := h
    rw [RateLimiter.run]
    by_cases hc : s.count < max_per_time
    · rw [s.log_maybe_fast now period max_per_time hc] at h2 ⊢
      have hrest := ih _ h2
      simp [executedCount] at hrest ⊢
      omega
    · have hle : ¬ period < now - s.timestamp := by
        simp only [Bool.or_eq_true, decide_eq_true_eq] at h1
        rcases h1 with h1 | h1
        · exact absurd h1 hc
        · omega
      rw [s.log_maybe_supp now period max_per_time hc hle] at h2 ⊢
      have hrest := ih _ h2
      simp [executedCount] at hrest ⊢
      omega

/-- On a no-rollover trace the shared limiter executes at most the remaining
budget of the current window. -/
theorem SynchronisedRateLimiter.executed_le_of_noRollover_sync
    (period max_per_time : Nat) (nows : List Nat) :
    ∀ s : SynchronisedRateLimiter,
      s.noRollover period max_per_time nows = true →
      executedCount (s.run period max_per_time nows).2 ≤
        max_per_time - s.count := by
  induction nows with
  | nil =>
    intro s _
    simp [SynchronisedRateLimiter.run, executedCount]
  | cons now rest ih =>
    intro s h
    rw [SynchronisedRateLimiter.noRollover, Bool.and_eq_true] at h
    obtain ⟨h1, h2⟩ := h
    rw [SynchronisedRateLimiter.run]
    by_cases hc : s.count + 1 ≤ max_per_time
    · rw [s.log_maybe_fast_sync now period max_per_time hc] at h2 ⊢
      have hrest := ih _ h2
      simp [executedCount] at hrest ⊢
      omega
    · have hle : ¬ period < now - s.timestamp := by
        simp only [Bool.or_eq_true, decide_eq_true_eq] at h1
        rcases h1 with h1 | h1
        · exact absurd h1 hc
        · omega
      rw [s.log_maybe_supp_sync now period max_per_time hc hle] at h2 ⊢
      have hrest := ih _ h2
      simp [executedCount] at hrest ⊢
      omega

/-- C1: Cap property — on any sequence of log_maybe calls against one
freshly constructed limiter in which no call observes an elapsed window
(now - window_start > period), the number of executions of the
caller-supplied action never exceeds max_per_time, for both the exclusive
RateLimiter and the sequentially used SynchronisedRateLimiter. -/
theorem cap_property (t0 period max_per_time : Nat) (nows : List Nat)
    (hR : (RateLimiter.new t0).noRollover period max_per_time nows = true)
    (hS : (SynchronisedRateLimiter.new t0).noRollover period max_per_time
        nows = true) :
    executedCount
        ((RateLimiter.new t0).run period max_per_time nows).2 ≤ max_per_time ∧
    executedCount
        ((SynchronisedRateLimiter.new t0).run period max_per_time nows).2 ≤
      max_per_time := by
  constructor
  · have h := RateLimiter.executed_le_of_noRollover period max_per_time nows
      (RateLimiter.new t0) hR
    simp only [RateLimiter.new] at h ⊢
    omega
  · have h := SynchronisedRateLimiter.executed_le_of_noRollover_sync period
      max_per_time nows (SynchronisedRateLimiter.new t0) hS
    simp only [SynchronisedRateLimiter.new] at h ⊢
    omega

/-- Witness for cap_property at threshold 2, period 50, five calls inside
one window. -/
theorem cap_property_witness :
    ((RateLimiter.new 0).noRollover 50 2 [0, 11, 22, 33, 44] = true) ∧
    ((SynchronisedRateLimiter.new 0).noRollover 50 2 [0, 11, 22, 33, 44] =
      true) ∧
    (executedCount ((RateLimiter.new 0).run 50 2 [0, 11, 22, 33, 44]).2 ≤ 2 ∧
     executedCount
        ((SynchronisedRateLimiter.new 0).run 50 2 [0, 11, 22, 33, 44]).2 ≤ 2) :=
  ⟨by decide, by decide,
    cap_property 0 50 2 [0, 11, 22, 33, 44] (by decide) (by decide)⟩

/-- One step of the exclusive limiter preserves the window accounting
invariant relating the counter to the suppressed-call tally. -/
theorem RateLimiter.inv_step (s : RateLimiter)
    (supp now period max_per_time : Nat) (hmax : 1 ≤ max_per_time)
    (h : s.count = min s.count max_per_time + supp) :
    (s.log_maybe now period max_per_time).1.count =
      min (s.log_maybe now period max_per_time).1.count max_per_time +
        (if (s.log_maybe now period max_per_time).2.ran then
           (if s.count < max_per_time then supp else 0)
         else supp + 1) := by
  by_cases hc : s.count < max_per_time
  · simp [s.log_maybe_fast now period max_per_time hc, hc]
    omega
  · by_cases h2 : period < now - s.timestamp
    · simp [s.log_maybe_roll now period max_per_time hc h2, hc]
      omega
    · simp [s.log_maybe_supp now period max_per_time hc h2, hc]
      omega

/-- One step of the shared limiter preserves the window accounting
invariant relating the counter to the suppressed-call tally. -/
theorem SynchronisedRateLimiter.inv_step_sync (s : SynchronisedRateLimiter)
    (supp now period max_per_time : Nat) (hmax : 1 ≤ max_per_time)
    (h : s.count = min s.count max_per_time + supp) :
    (s.log_maybe now period max_per_time).1.count =
      min (s.log_maybe now period max_per_time).1.count max_per_time +
        (if (s.log_maybe now period max_per_time).2.ran then
           (if s.count + 1 ≤ max_per_time then supp else 0)
         else supp + 1) := by
  by_cases hc : s.count + 1 ≤ max_per_time
  · simp [s.log_maybe_fast_sync now period max_per_time hc, hc]
    omega
  · by_cases h2 : period < now - s.timestamp
    · simp [s.log_maybe_roll_sync now period max_per_time hc h2, hc]
      omega
    · simp [s.log_maybe_supp_sync now period max_per_time hc h2, hc]
      omega

/-- The instrumented exclusive trace maintains the window accounting
invariant: the counter equals its threshold-capped value plus the number of
suppressed calls since the last rollover. -/
theorem RateLimiter.runAcc_inv (period max_per_time : Nat)
    (hmax : 1 ≤ max_per_time) (nows : List Nat) :
    ∀ (s : RateLimiter) (supp : Nat),
      s.count = min s.count max_per_time + supp →
      (s.runAcc supp period max_per_time nows).1.count =
        min (s.runAcc supp period max_per_time nows).1.count max_per_time +
          (s.runAcc supp period max_per_time nows).2 := by
  induction nows with
  | nil =>
    intro s supp h
    simpa [RateLimiter.runAcc] using h
  | cons now rest ih =>
    intro s supp h
    rw [RateLimiter.runAcc]
    exact ih _ _ (s.inv_step supp now period max_per_time hmax h)

/-- The instrumented shared trace maintains the window accounting
invariant, as for the exclusive one. -/
theorem SynchronisedRateLimiter.runAcc_inv_sync (period max_per_time : Nat)
    (hmax : 1 ≤ max_per_time) (nows : List Nat) :
    ∀ (s : SynchronisedRateLimiter) (supp : Nat),
      s.count = min s.count max_per_time + supp →
      (s.runAcc supp period max_per_time nows).1.count =
        min (s.runAcc supp period max_per_time nows).1.count max_per_time +
          (s.runAcc supp period max_per_time nows).2 := by
  induction nows with
  | nil =>
    intro s supp h
    simpa [SynchronisedRateLimiter.runAcc] using h
  | cons now rest ih =>
    intro s supp h
    rw [SynchronisedRateLimiter.runAcc]
    exact ih _ _ (s.inv_step_sync supp now period max_per_time hmax h)

/-- C2: Drop accounting — after any instrumented trace from a fresh limiter,
a call that rolls over (counter at or over max_per_time and window elapsed)
reports a drop count equal to the number of suppressed calls since the
threshold was reached in that window, reports nothing when that number is
zero, resets the counter to 1 for the rolling-over call, and sets the
window start to now; for both variants under sequential use. -/
theorem drop_accounting (t0 period max_per_time now : Nat) (nows : List Nat)
    (hmax : 1 ≤ max_per_time)
    (hcapR : max_per_time ≤
      ((RateLimiter.new t0).runAcc 0 period max_per_time nows).1.count)
    (helR : period < now -
      ((RateLimiter.new t0).runAcc 0 period max_per_time nows).1.timestamp)
    (hcapS : max_per_time ≤
      ((SynchronisedRateLimiter.new t0).runAcc 0 period max_per_time
          nows).1.count)
    (helS : period < now -
      ((SynchronisedRateLimiter.new t0).runAcc 0 period max_per_time
          nows).1.timestamp) :
    ((((RateLimiter.new t0).runAcc 0 period max_per_time nows).1.log_maybe
        now period max_per_time).2.dropReport =
      (if 0 < ((RateLimiter.new t0).runAcc 0 period max_per_time nows).2 then
         some ((RateLimiter.new t0).runAcc 0 period max_per_time nows).2
       else none)) ∧
    ((((RateLimiter.new t0).runAcc 0 period max_per_time nows).1.log_maybe
        now period max_per_time).1.count = 1) ∧
    ((((RateLimiter.new t0).runAcc 0 period max_per_time nows).1.log_maybe
        now period max_per_time).1.timestamp = now) ∧
    ((((SynchronisedRateLimiter.new t0).runAcc 0 period max_per_time
          nows).1.log_maybe now period max_per_time).2.dropReport =
      (if 0 < ((SynchronisedRateLimiter.new t0).runAcc 0 period max_per_time
            nows).2 then
         some ((SynchronisedRateLimiter.new t0).runAcc 0 period max_per_time
            nows).2
       else none)) ∧
    ((((SynchronisedRateLimiter.new t0).runAcc 0 period max_per_time
          nows).1.log_maybe now period max_per_time).1.count = 1) ∧
    ((((SynchronisedRateLimiter.new t0).runAcc 0 period max_per_time
          nows).1.log_maybe now period max_per_time).1.timestamp = now) := by
  have hinvR := RateLimiter.runAcc_inv period max_per_time hmax nows
    (RateLimiter.new t0) 0 (by simp [RateLimiter.new])
  have hinvS := SynchronisedRateLimiter.runAcc_inv_sync period max_per_time hmax
    nows (SynchronisedRateLimiter.new t0) 0
    (by simp [SynchronisedRateLimiter.new])
  have hdR : ((RateLimiter.new t0).runAcc 0 period max_per_time nows).1.count
      - max_per_time =
      ((RateLimiter.new t0).runAcc 0 period max_per_time nows).2 := by
    omega
  have hdS : ((SynchronisedRateLimiter.new t0).runAcc 0 period max_per_time
        nows).1.count + 1 - max_per_time - 1 =
      ((SynchronisedRateLimiter.new t0).runAcc 0 period max_per_time
        nows).2 := by
    omega
  rw [RateLimiter.log_maybe_roll _ _ _ _ (by omega) helR, hdR,
    SynchronisedRateLimiter.log_maybe_roll_sync _ _ _ _ (by omega) helS, hdS]
  exact ⟨rfl, rfl, rfl, rfl, rfl, rfl⟩

/-- Witness for drop_accounting: threshold 2, period 50, calls inside one
window at 0, 11, 22, 33, 44 and a rolling-over call at 55 reporting the 3
suppressed calls. -/
theorem drop_accounting_witness :
    (1 ≤ 2) ∧
    (2 ≤ ((RateLimiter.new 0).runAcc 0 50 2 [0, 11, 22, 33, 44]).1.count) ∧
    (50 < 55 -
      ((RateLimiter.new 0).runAcc 0 50 2 [0, 11, 22, 33, 44]).1.timestamp) ∧
    (2 ≤ ((SynchronisedRateLimiter.new 0).runAcc 0 50 2
        [0, 11, 22, 33, 44]).1.count) ∧
    (50 < 55 - ((SynchronisedRateLimiter.new 0).runAcc 0 50 2
        [0, 11, 22, 33, 44]).1.timestamp) ∧
    (((((RateLimiter.new 0).runAcc 0 50 2 [0, 11, 22, 33, 44]).1.log_maybe
        55 50 2).2.dropReport =
      (if 0 < ((RateLimiter.new 0).runAcc 0 50 2 [0, 11, 22, 33, 44]).2 then
         some ((RateLimiter.new 0).runAcc 0 50 2 [0, 11, 22, 33, 44]).2
       else none)) ∧
    ((((RateLimiter.new 0).runAcc 0 50 2 [0, 11, 22, 33, 44]).1.log_maybe
        55 50 2).1.count = 1) ∧
    ((((RateLimiter.new 0).runAcc 0 50 2 [0, 11, 22, 33, 44]).1.log_maybe
        55 50 2).1.timestamp = 55) ∧
    ((((SynchronisedRateLimiter.new 0).runAcc 0 50 2
          [0, 11, 22, 33, 44]).1.log_maybe 55 50 2).2.dropReport =
      (if 0 < ((SynchronisedRateLimiter.new 0).runAcc 0 50 2
            [0, 11, 22, 33, 44]).2 then
         some ((SynchronisedRateLimiter.new 0).runAcc 0 50 2
            [0, 11, 22, 33, 44]).2
       else none)) ∧
    ((((SynchronisedRateLimiter.new 0).runAcc 0 50 2
          [0, 11, 22, 33, 44]).1.log_maybe 55 50 2).1.count = 1) ∧
    ((((SynchronisedRateLimiter.new 0).runAcc 0 50 2
          [0, 11, 22, 33, 44]).1.log_maybe 55 50 2).1.timestamp = 55)) :=
  ⟨by decide, by decide, by decide, by decide, by decide,
    drop_accounting 0 50 2 55 [0, 11, 22, 33, 44] (by decide) (by decide)
      (by decide) (by decide) (by decide)⟩

/-- C3 counterexample: at state (count 1, window start 0) — reached from a
fresh limiter with max_per_time 1 after one call — the call at instant 5
with period 2 executes the action although the count observed before the
call is not strictly below max_per_time, refuting the claimed
if-and-only-if. -/
theorem threshold_iff_cex :
    ((RateLimiter.mk 1 0).log_maybe 5 2 1).2.ran = true ∧
    ¬ (RateLimiter.mk 1 0).count < 1 := by
  decide

/-- C3 (amended): an evaluate-call executes the action iff the count
observed before the call is strictly below max_per_time, or the count is at
or over max_per_time and the window has elapsed (rollover); the
throttling-starts diagnostic fires exactly on the call whose increment
reaches max_per_time; with max_per_time = 1 the first call on a fresh
limiter both executes and fires that diagnostic; both variants. -/
theorem threshold_boundary_policy (s : RateLimiter)
    (q : SynchronisedRateLimiter) (t0 now period max_per_time : Nat) :
    ((s.log_maybe now period max_per_time).2.ran = true ↔
      (s.count < max_per_time ∨
        (max_per_time ≤ s.count ∧ period < now - s.timestamp))) ∧
    ((s.log_maybe now period max_per_time).2.hitThreshold = true ↔
      s.count + 1 = max_per_time) ∧
    ((q.log_maybe now period max_per_time).2.ran = true ↔
      (q.count < max_per_time ∨
        (max_per_time ≤ q.count ∧ period < now - q.timestamp))) ∧
    ((q.log_maybe now period max_per_time).2.hitThreshold = true ↔
      q.count + 1 = max_per_time) ∧
    (((RateLimiter.new t0).log_maybe now period 1).2.ran = true ∧
     ((RateLimiter.new t0).log_maybe now period 1).2.hitThreshold = true) ∧
    (((SynchronisedRateLimiter.new t0).log_maybe now period 1).2.ran = true ∧
     ((SynchronisedRateLimiter.new t0).log_maybe now period
         1).2.hitThreshold = true) := by
  refine ⟨?_, ?_, ?_, ?_, ?_, ?_⟩
  · by_cases hc : s.count < max_per_time
    · simp [s.log_maybe_fast now period max_per_time hc, hc]
    · by_cases h2 : period < now - s.timestamp
      · simp [s.log_maybe_roll now period max_per_time hc h2, hc, h2]
        omega
      · simp [s.log_maybe_supp now period max_per_time hc h2, hc, h2]
  · by_cases hc : s.count < max_per_time
    · simp [s.log_maybe_fast now period max_per_time hc]
    · by_cases h2 : period < now - s.timestamp
      · simp [s.log_maybe_roll now period max_per_time hc h2]
        omega
      · simp [s.log_maybe_supp now period max_per_time hc h2]
        omega
  · by_cases hc : q.count + 1 ≤ max_per_time
    · simp [q.log_maybe_fast_sync now period max_per_time hc]
      omega
    · by_cases h2 : period < now - q.timestamp
      · simp [q.log_maybe_roll_sync now period max_per_time hc h2, h2]
        omega
      · simp [q.log_maybe_supp_sync now period max_per_time hc h2, h2]
        omega
  · by_cases hc : q.count + 1 ≤ max_per_time
    · simp [q.log_maybe_fast_sync now period max_per_time hc]
    · by_cases h2 : period < now - q.timestamp
      · simp [q.log_maybe_roll_sync now period max_per_time hc h2]
        omega
      · simp [q.log_maybe_supp_sync now period max_per_time hc h2]
        omega
  · constructor <;> simp [RateLimiter.new, RateLimiter.log_maybe]
  · constructor <;>
      simp [SynchronisedRateLimiter.new, SynchronisedRateLimiter.log_maybe]

/-- C4: Strict window-elapsed test — once the count is at or over
max_per_time, the action executes exactly when now - window_start strictly
exceeds period, and a call whose elapsed time equals period exactly is
suppressed (no execution, count merely incremented); both variants. -/
theorem strict_window_elapsed (s : RateLimiter) (q : SynchronisedRateLimiter)
    (now period max_per_time : Nat) (hs : max_per_time ≤ s.count)
    (hq : max_per_time ≤ q.count) :
    ((s.log_maybe now period max_per_time).2.ran = true ↔
      period < now - s.timestamp) ∧
    (now - s.timestamp = period →
      (s.log_maybe now period max_per_time).2.ran = false ∧
      (s.log_maybe now period max_per_time).1.count = s.count + 1) ∧
    ((q.log_maybe now period max_per_time).2.ran = true ↔
      period < now - q.timestamp) ∧
    (now - q.timestamp = period →
      (q.log_maybe now period max_per_time).2.ran = false ∧
      (q.log_maybe now period max_per_time).1.count = q.count + 1) := by
  have hcs : ¬ s.count < max_per_time := by omega
  have hcq : ¬ q.count + 1 ≤ max_per_time := by omega
  refine ⟨?_, ?_, ?_, ?_⟩
  · by_cases h2 : period < now - s.timestamp
    · simp [s.log_maybe_roll now period max_per_time hcs h2, h2]
    · simp [s.log_maybe_supp now period max_per_time hcs h2, h2]
  · intro heq
    have h2 : ¬ period < now - s.timestamp := by omega
    simp [s.log_maybe_supp now period max_per_time hcs h2]
  · by_cases h2 : period < now - q.timestamp
    · simp [q.log_maybe_roll_sync now period max_per_time hcq h2, h2]
    · simp [q.log_maybe_supp_sync now period max_per_time hcq h2, h2]
  · intro heq
    have h2 : ¬ period < now - q.timestamp := by omega
    simp [q.log_maybe_supp_sync now period max_per_time hcq h2]

/-- Witness for strict_window_elapsed: count 2 at threshold 2, window start
0, a call at instant 50 with period 50 lands exactly on the boundary and is
suppressed. -/
theorem strict_window_elapsed_witness :
    (2 ≤ (RateLimiter.mk 2 0).count) ∧
    (2 ≤ (SynchronisedRateLimiter.mk 2 0).count) ∧
    ((((RateLimiter.mk 2 0).log_maybe 50 50 2).2.ran = true ↔
        50 < 50 - (RateLimiter.mk 2 0).timestamp) ∧
     (50 - (RateLimiter.mk 2 0).timestamp = 50 →
       ((RateLimiter.mk 2 0).log_maybe 50 50 2).2.ran = false ∧
       ((RateLimiter.mk 2 0).log_maybe 50 50 2).1.count =
         (RateLimiter.mk 2 0).count + 1) ∧
     (((SynchronisedRateLimiter.mk 2 0).log_maybe 50 50 2).2.ran = true ↔
        50 < 50 - (SynchronisedRateLimiter.mk 2 0).timestamp) ∧
     (50 - (SynchronisedRateLimiter.mk 2 0).timestamp = 50 →
       ((SynchronisedRateLimiter.mk 2 0).log_maybe 50 50 2).2.ran = false ∧
       ((SynchronisedRateLimiter.mk 2 0).log_maybe 50 50 2).1.count =
         (SynchronisedRateLimiter.mk 2 0).count + 1)) :=
  ⟨by decide, by decide,
    strict_window_elapsed (RateLimiter.mk 2 0) (SynchronisedRateLimiter.mk 2 0)
      50 50 2 (by decide) (by decide)⟩

/-- View of an exclusive-limiter state as a shared-limiter state with the
same counter and timestamp. -/
def RateLimiter.toSync (s : RateLimiter) : SynchronisedRateLimiter :=
  { count := s.count, timestamp := s.timestamp }

/-- From corresponding states the two variants take the same branch and
produce the same output and corresponding next states. -/
theorem log_maybe_state_equiv (s : RateLimiter) (now period max_per_time : Nat) :
    (s.log_maybe now period max_per_time).2 =
      (s.toSync.log_maybe now period max_per_time).2 ∧
    (s.log_maybe now period max_per_time).1.toSync =
      (s.toSync.log_maybe now period max_per_time).1 := by
  by_cases hc : s.count < max_per_time
  · have hc2 : s.toSync.count + 1 ≤ max_per_time := hc
    rw [s.log_maybe_fast now period max_per_time hc,
      s.toSync.log_maybe_fast_sync now period max_per_time hc2]
    simp [RateLimiter.toSync]
  · by_cases h2 : period < now - s.timestamp
    · have hc2 : ¬ s.toSync.count + 1 ≤ max_per_time := by
        show ¬ s.count + 1 ≤ max_per_time
        omega
      have h2s : period < now - s.toSync.timestamp := h2
      have he : s.count + 1 - max_per_time - 1 = s.count - max_per_time := by
        omega
      rw [s.log_maybe_roll now period max_per_time hc h2,
        s.toSync.log_maybe_roll_sync now period max_per_time hc2 h2s]
      simp [RateLimiter.toSync, he]
    · have hc2 : ¬ s.toSync.count + 1 ≤ max_per_time := by
        show ¬ s.count + 1 ≤ max_per_time
        omega
      have h2s : ¬ period < now - s.toSync.timestamp := h2
      rw [s.log_maybe_supp now period max_per_time hc h2,
        s.toSync.log_maybe_supp_sync now period max_per_time hc2 h2s]
      simp [RateLimiter.toSync]

/-- From corresponding states the two variants produce identical output
traces and corresponding final states on any per-call input sequence. -/
theorem runSeq_state_equiv (calls : List (Nat × Nat × Nat)) :
    ∀ s : RateLimiter,
      (s.runSeq calls).2 = (s.toSync.runSeq calls).2 ∧
      (s.runSeq calls).1.toSync = (s.toSync.runSeq calls).1 := by
  induction calls with
  | nil =>
    intro s
    exact ⟨rfl, rfl⟩
  | cons call rest ih =>
    intro s
    rw [RateLimiter.runSeq, SynchronisedRateLimiter.runSeq]
    obtain ⟨ho, hst⟩ := log_maybe_state_equiv s call.1 call.2.1 call.2.2
    obtain ⟨ih1, ih2⟩ := ih (s.log_maybe call.1 call.2.1 call.2.2).1
    constructor
    · show (s.log_maybe call.1 call.2.1 call.2.2).2 ::
          ((s.log_maybe call.1 call.2.1 call.2.2).1.runSeq rest).2 =
        (s.toSync.log_maybe call.1 call.2.1 call.2.2).2 ::
          ((s.toSync.log_maybe call.1 call.2.1 call.2.2).1.runSeq rest).2
      rw [ho, ← hst, ← ih1]
    · show ((s.log_maybe call.1 call.2.1 call.2.2).1.runSeq rest).1.toSync =
        ((s.toSync.log_maybe call.1 call.2.1 call.2.2).1.runSeq rest).1
      rw [← hst, ih2]

/-- C5: Variant equivalence — for every same sequence of (now, period,
max_per_time) inputs applied sequentially to freshly constructed limiters,
the exclusive and the shared variant produce identical output traces: the
same calls execute the action, the same calls fire the throttling-starts
diagnostic, and every rollover reports the same drop count. -/
theorem variant_equivalence (t0 : Nat) (calls : List (Nat × Nat × Nat)) :
    ((RateLimiter.new t0).runSeq calls).2 =
      ((SynchronisedRateLimiter.new t0).runSeq calls).2 ∧
    executedCount ((RateLimiter.new t0).runSeq calls).2 =
      executedCount ((SynchronisedRateLimiter.new t0).runSeq calls).2 ∧
    dropReports ((RateLimiter.new t0).runSeq calls).2 =
      dropReports ((SynchronisedRateLimiter.new t0).runSeq calls).2 := by
  have h : ((RateLimiter.new t0).runSeq calls).2 =
      ((SynchronisedRateLimiter.new t0).runSeq calls).2 :=
    (runSeq_state_equiv calls (RateLimiter.new t0)).1
  exact ⟨h, by rw [h], by rw [h]⟩

/-- C6 counterexample: shared limiter at counter 2, window start 0 — the
state after two sequential calls with max_per_time 1 inside the window —
rolls over at instant 5 with period 2.  The pre-swap counter is 3, yet the
reported drop is 1, not 3 - 1 = 2 as the claimed formula pre-swap count
minus max_per_time would give. -/
theorem shared_drop_formula_cex :
    ((SynchronisedRateLimiter.mk 2 0).log_maybe 5 2 1).2.dropReport =
      some 1 ∧
    (SynchronisedRateLimiter.mk 2 0).count + 1 = 3 ∧
    some 1 ≠ some (3 - 1) := by
  decide

/-- C6 (amended): in the shared slow path, when the elapsed check passes
the counter is swapped to the post-rollover baseline 1, the computed drop
equals the pre-swap counter minus max_per_time minus 1, it is reported only
if positive, the action executes, and the window start is set to now. -/
theorem shared_slow_path_rollover (c t now period max_per_time : Nat)
    (hslow : max_per_time < c + 1) (helapsed : period < now - t) :
    ((SynchronisedRateLimiter.mk c t).log_maybe now period
        max_per_time).1.count = 1 ∧
    ((SynchronisedRateLimiter.mk c t).log_maybe now period
        max_per_time).1.timestamp = now ∧
    ((SynchronisedRateLimiter.mk c t).log_maybe now period
        max_per_time).2.ran = true ∧
    ((SynchronisedRateLimiter.mk c t).log_maybe now period
        max_per_time).2.dropReport =
      (if 0 < c + 1 - max_per_time - 1 then some (c + 1 - max_per_time - 1)
       else none) := by
  have hc : ¬ (SynchronisedRateLimiter.mk c t).count + 1 ≤ max_per_time := by
    show ¬ c + 1 ≤ max_per_time
    omega
  rw [SynchronisedRateLimiter.log_maybe_roll_sync _ _ _ _ hc helapsed]
  exact ⟨rfl, rfl, rfl, rfl⟩

/-- Witness for shared_slow_path_rollover at counter 2, threshold 1,
instant 5, period 2: one suppressed call is reported. -/
theorem shared_slow_path_rollover_witness :
    (1 < 2 + 1) ∧ (2 < 5 - 0) ∧
    (((SynchronisedRateLimiter.mk 2 0).log_maybe 5 2 1).1.count = 1 ∧
     ((SynchronisedRateLimiter.mk 2 0).log_maybe 5 2 1).1.timestamp = 5 ∧
     ((SynchronisedRateLimiter.mk 2 0).log_maybe 5 2 1).2.ran = true ∧
     ((SynchronisedRateLimiter.mk 2 0).log_maybe 5 2 1).2.dropReport =
       (if 0 < 2 + 1 - 1 - 1 then some (2 + 1 - 1 - 1) else none)) :=
  ⟨by decide, by decide,
    shared_slow_path_rollover 2 0 5 2 1 (by decide) (by decide)⟩

/-- C7 counterexample: neither constructor takes a threshold, so nothing is
rejected at construction; with max_per_time 0 passed to log_maybe the fresh
exclusive limiter silently executes the action at instant 5 with period 2,
with no error and no drop diagnostic, so a zero threshold is not rejected
and does not error. -/
theorem zero_threshold_cex :
    (RateLimiter.new 0).count = 0 ∧
    ((RateLimiter.new 0).log_maybe 5 2 0).2.ran = true ∧
    ((SynchronisedRateLimiter.new 0).log_maybe 5 2 0).2.ran = true := by
  decide

/-- C7 (amended): construction takes no threshold and performs no
validation — max_per_time is a per-call argument and 0 is accepted without
error: every call then takes the over-threshold path, is suppressed while
the window has not elapsed, and executes the action exactly when
now - window_start strictly exceeds period; both variants. -/
theorem zero_threshold_behaviour (t0 now period : Nat) (s : RateLimiter)
    (q : SynchronisedRateLimiter) :
    (RateLimiter.new t0).count = 0 ∧
    (RateLimiter.new t0).timestamp = t0 ∧
    (SynchronisedRateLimiter.new t0).count = 0 ∧
    (SynchronisedRateLimiter.new t0).timestamp = t0 ∧
    (s.log_maybe now period 0).2.ran = decide (period < now - s.timestamp) ∧
    (q.log_maybe now period 0).2.ran = decide (period < now - q.timestamp) := by
  refine ⟨rfl, rfl, rfl, rfl, ?_, ?_⟩
  · have hc : ¬ s.count < 0 := by omega
    by_cases h2 : period < now - s.timestamp
    · rw [s.log_maybe_roll now period 0 hc h2]
      simp [h2]
    · rw [s.log_maybe_supp now period 0 hc h2]
      simp [h2]
  · have hc : ¬ q.count + 1 ≤ 0 := by omega
    by_cases h2 : period < now - q.timestamp
    · rw [q.log_maybe_roll_sync now period 0 hc h2]
      simp [h2]
    · rw [q.log_maybe_supp_sync now period 0 hc h2]
      simp [h2]

/-- C8: Scenario A — the exclusive limiter with max_per_time 2 and period
50, constructed at instant 0 and called 11 times at instants 0, 11, ...,
110, executes the action exactly 5 times and emits exactly 2 drop
diagnostics, each reporting 3 suppressed calls. -/
theorem scenario_a :
    executedCount ((RateLimiter.new 0).run 50 2
        [0, 11, 22, 33, 44, 55, 66, 77, 88, 99, 110]).2 = 5 ∧
    dropReports ((RateLimiter.new 0).run 50 2
        [0, 11, 22, 33, 44, 55, 66, 77, 88, 99, 110]).2 = [3, 3] := by
  decide

/-- One log_maybe call never moves the window start backwards, for either
variant: it is kept, or replaced by the current instant, which the strict
elapsed test forces to lie strictly after the stored value. -/
theorem timestamp_mono_step (s : RateLimiter) (q : SynchronisedRateLimiter)
    (now period max_per_time : Nat) :
    s.timestamp ≤ (s.log_maybe now period max_per_time).1.timestamp ∧
    q.timestamp ≤ (q.log_maybe now period max_per_time).1.timestamp := by
  constructor
  · by_cases hc : s.count < max_per_time
    · rw [s.log_maybe_fast now period max_per_time hc]
    · by_cases h2 : period < now - s.timestamp
      · rw [s.log_maybe_roll now period max_per_time hc h2]
        show s.timestamp ≤ now
        omega
      · rw [s.log_maybe_supp now period max_per_time hc h2]
  · by_cases hc : q.count + 1 ≤ max_per_time
    · rw [q.log_maybe_fast_sync now period max_per_time hc]
    · by_cases h2 : period < now - q.timestamp
      · rw [q.log_maybe_roll_sync now period max_per_time hc h2]
        show q.timestamp ≤ now
        omega
      · rw [q.log_maybe_supp_sync now period max_per_time hc h2]

/-- Along any exclusive trace the window start never decreases. -/
theorem RateLimiter.run_timestamp_mono (period max_per_time : Nat)
    (nows : List Nat) :
    ∀ s : RateLimiter,
      s.timestamp ≤ (s.run period max_per_time nows).1.timestamp := by
  induction nows with
  | nil => intro s; exact Nat.le_refl _
  | cons now rest ih =>
    intro s
    rw [RateLimiter.run]
    exact Nat.le_trans
      (timestamp_mono_step s s.toSync now period max_per_time).1 (ih _)

/-- Along any shared trace the window start never decreases. -/
theorem SynchronisedRateLimiter.run_timestamp_mono_sync (period max_per_time : Nat)
    (nows : List Nat) :
    ∀ q : SynchronisedRateLimiter,
      q.timestamp ≤ (q.run period max_per_time nows).1.timestamp := by
  induction nows with
  | nil => intro q; exact Nat.le_refl _
  | cons now rest ih =>
    intro q
    rw [SynchronisedRateLimiter.run]
    exact Nat.le_trans
      (timestamp_mono_step (RateLimiter.mk q.count q.timestamp) q now period
        max_per_time).2 (ih _)

/-- C9: Monotonic window start — a single log_maybe call never moves the
window start backwards (it is only reassigned to the current instant at a
rollover, and that instant lies strictly after the stored value), and hence
over any sequence of calls the window start is non-decreasing; both
variants. -/
theorem monotonic_window_start (s : RateLimiter)
    (q : SynchronisedRateLimiter) (now period max_per_time : Nat)
    (nows : List Nat) :
    s.timestamp ≤ (s.log_maybe now period max_per_time).1.timestamp ∧
    q.timestamp ≤ (q.log_maybe now period max_per_time).1.timestamp ∧
    s.timestamp ≤ (s.run period max_per_time nows).1.timestamp ∧
    q.timestamp ≤ (q.run period max_per_time nows).1.timestamp :=
  ⟨(timestamp_mono_step s q now period max_per_time).1,
   (timestamp_mono_step s q now period max_per_time).2,
   RateLimiter.run_timestamp_mono period max_per_time nows s,
   SynchronisedRateLimiter.run_timestamp_mono_sync period max_per_time nows q⟩

/-- C10: No arithmetic underflow in the drop computations — for every state
and every input, the checked versions of both log_maybe variants, in which
each usize subtraction of the drop expression returns none on underflow,
agree with the unchecked embeddings: the exclusive subtraction
count - max_per_time only runs with count at or over max_per_time, and the
shared swap(1) - max_per_time - 1 only runs with the swapped-out value at
least max_per_time + 1. -/
theorem no_underflow (s : RateLimiter) (q : SynchronisedRateLimiter)
    (now period max_per_time : Nat) :
    s.log_maybe_checked now period max_per_time =
      some (s.log_maybe now period max_per_time) ∧
    q.log_maybe_checked now period max_per_time =
      some (q.log_maybe now period max_per_time) := by
  constructor
  · by_cases hc : s.count < max_per_time
    · simp [RateLimiter.log_maybe_checked, RateLimiter.log_maybe, hc]
    · by_cases h2 : period < now - s.timestamp
      · have hsub : checkedSub s.count max_per_time =
            some (s.count - max_per_time) := by
          simp [checkedSub]
          omega
        simp [RateLimiter.log_maybe_checked, RateLimiter.log_maybe, hc, h2,
          hsub]
      · simp [RateLimiter.log_maybe_checked, RateLimiter.log_maybe, hc, h2]
  · by_cases hc : q.count + 1 ≤ max_per_time
    · simp [SynchronisedRateLimiter.log_maybe_checked,
        SynchronisedRateLimiter.log_maybe, hc]
    · by_cases h2 : period < now - q.timestamp
      · have hsub : checkedSub (q.count + 1) max_per_time =
            some (q.count + 1 - max_per_time) := by
          simp [checkedSub]
          omega
        have hsub1 : checkedSub (q.count + 1 - max_per_time) 1 =
            some (q.count + 1 - max_per_time - 1) := by
          simp [checkedSub]
          omega
        simp [SynchronisedRateLimiter.log_maybe_checked,
          SynchronisedRateLimiter.log_maybe, hc, h2, hsub, hsub1]
      · simp [SynchronisedRateLimiter.log_maybe_checked,
          SynchronisedRateLimiter.log_maybe, hc, h2]
